import Mathlib

/-!
# Shallow embedding of the Qwen_GPU_Player playback engine

This file models `src/core/AudioEngine.cpp` (class `AudioEngine` and its
`Impl` state) and proves or refutes the specification claims about it.

Modelling conventions:
* C++ `double` values (seek seconds, EQ parameters) are modelled as `ℚ`;
  every comparison the code performs on them is an order comparison between
  values that are exactly representable in both, so the order structure is
  preserved.
* Byte buffers (`std::vector<char>`) are `List Nat`, each element a byte
  value `< 256` in intent (the parser and writer only ever produce such
  values; we do not carry the bound as an invariant because no claim needs
  it).
* The `Impl` fields of the C++ class become fields of `EngineState`.
  `std::thread playbackThread` is represented by `threadJoinable`
  (the value of `playbackThread.joinable()`), `HWAVEOUT hWaveOut` by the
  Boolean `hWaveOut` (`hWaveOut != nullptr`), and the result of the
  `waveOutPause` device call made by `Seek` by `deviceResponsive`.
-/

/-- Model of `WAVEFORMATEX` as the engine fills it in
(`nChannels`, `nSamplesPerSec`, `wBitsPerSample`, `nBlockAlign`,
`nAvgBytesPerSec`). `wFormatTag` is always `WAVE_FORMAT_PCM` and `cbSize`
always `0` in the source, so they are omitted. -/
structure WaveFormat where
  nChannels : Nat
  nSamplesPerSec : Nat
  wBitsPerSample : Nat
  nBlockAlign : Nat
  nAvgBytesPerSec : Nat
deriving DecidableEq, Repr

/-- Model of the `IGPUProcessor` instance handed to `AudioEngine::Initialize`:
the only observation the engine makes at bind time is `IsAvailable()`. -/
structure GPUProcessor where
  available : Bool
deriving DecidableEq, Repr

/-- Model of `AudioEngine::Impl`: the per-engine mutable state. -/
structure EngineState where
  initialized : Bool
  currentFile : String
  isPlaying : Bool
  isPaused : Bool
  audioData : List Nat
  waveFormat : WaveFormat
  audioLoaded : Bool
  /-- `playbackPosition` : byte offset into `audioData`. -/
  playbackPosition : Nat
  /-- `playbackTime` : playback time in seconds (a C++ `double`). -/
  playbackTime : ℚ
  shouldStop : Bool
  /-- Whether `playbackThread.joinable()` would return true. -/
  threadJoinable : Bool
  /-- Whether `hWaveOut != nullptr`. -/
  hWaveOut : Bool
  /-- Whether a `waveOutPause` call on the open device returns
  `MMSYSERR_NOERROR` (external device behaviour, an oracle). -/
  deviceResponsive : Bool
  gpuProcessor : Option GPUProcessor
deriving DecidableEq, Repr

/-- The state of a freshly constructed `AudioEngine` (`Impl`'s default
member initializers). -/
def initialEngineState : EngineState :=
  { initialized := false
    currentFile := ""
    isPlaying := false
    isPaused := false
    audioData := []
    waveFormat := ⟨0, 0, 0, 0, 0⟩
    audioLoaded := false
    playbackPosition := 0
    playbackTime := 0
    shouldStop := false
    threadJoinable := false
    hWaveOut := false
    deviceResponsive := true
    gpuProcessor := none }

/-- `AudioEngine::Initialize` (AudioEngine.cpp:157-173): succeeds only when a
processor is supplied *and* `IsAvailable()` reports true; otherwise the
engine stays uninitialized. -/
def initEngine (s : EngineState) (proc : Option GPUProcessor) :
    EngineState × Bool :=
  match proc with
  | some p =>
      if p.available then
        ({ s with gpuProcessor := some p, initialized := true }, true)
      else (s, false)
  | none => (s, false)

/-- Failure cause of `AudioEngine::SetEQ`, as identified by the error message
the call prints before returning `false`. -/
inductive EQError where
  | notInitialized
  | freq1OutOfRange
  | freq2OutOfRange
  | gain1OutOfRange
  | gain2OutOfRange
  | q1OutOfRange
  | q2OutOfRange
deriving DecidableEq, Repr

/-- `AudioEngine::SetEQ` (AudioEngine.cpp:716-771).  The C++ function performs
no state mutation at all (it only validates and prints), so the model
returns the state unchanged together with the validation outcome.  The
checks appear in the source's order: freq1, freq2, gain1, gain2, q1, q2,
each against the inclusive constants MIN/MAX_FREQ = 20/20000,
MIN/MAX_GAIN = -20/20, MIN/MAX_Q = 0.1/10. -/
def setEQ (s : EngineState) (freq1 gain1 q1 freq2 gain2 q2 : ℚ) :
    EngineState × Except EQError Unit :=
  if !s.initialized then (s, .error .notInitialized)
  else if freq1 < 20 ∨ freq1 > 20000 then (s, .error .freq1OutOfRange)
  else if freq2 < 20 ∨ freq2 > 20000 then (s, .error .freq2OutOfRange)
  else if gain1 < -20 ∨ gain1 > 20 then (s, .error .gain1OutOfRange)
  else if gain2 < -20 ∨ gain2 > 20 then (s, .error .gain2OutOfRange)
  else if q1 < 1/10 ∨ q1 > 10 then (s, .error .q1OutOfRange)
  else if q2 < 1/10 ∨ q2 > 10 then (s, .error .q2OutOfRange)
  else (s, .ok ())

/-- Which out-of-range condition an `EQError` blames, relative to the actual
arguments.  `notInitialized` blames no parameter. -/
def eqErrorBlames (e : EQError) (freq1 gain1 q1 freq2 gain2 q2 : ℚ) : Prop :=
  match e with
  | .notInitialized => False
  | .freq1OutOfRange => freq1 < 20 ∨ freq1 > 20000
  | .freq2OutOfRange => freq2 < 20 ∨ freq2 > 20000
  | .gain1OutOfRange => gain1 < -20 ∨ gain1 > 20
  | .gain2OutOfRange => gain2 < -20 ∨ gain2 > 20
  | .q1OutOfRange => q1 < 1/10 ∨ q1 > 10
  | .q2OutOfRange => q2 < 1/10 ∨ q2 > 10

/-- Outcome of `AudioEngine::Play` (the error messages distinguish the
failure causes; `terminated` models the C++ `std::terminate` that
`playbackThread = std::thread(...)` raises when the previous thread object
is still joinable at the move-assignment). -/
inductive PlayResult where
  | notInitialized
  | noFileLoaded
  | noAudioData
  | started
  | terminated
deriving DecidableEq, Repr

/-- Result of `AudioEngine::Play` together with the observable thread
action: whether the call joined a previous playback thread before
assigning the new one. -/
structure PlayOutcome where
  state : EngineState
  result : PlayResult
  joinedPrevious : Bool
deriving DecidableEq, Repr

/-- `AudioEngine::Play`, caller side (AudioEngine.cpp:430-461, 552-554):
initialized check, `currentFile.empty()` check, `audioLoaded` check; if
`isPlaying`, set `shouldStop` and join the previous thread if joinable;
then reset `shouldStop`, move-assign a fresh `std::thread` into
`playbackThread` (which calls `std::terminate` if the member is still
joinable — the case where a previous thread finished naturally without
being joined), and set `isPlaying`. -/
def play (s : EngineState) : PlayOutcome :=
  if !s.initialized then ⟨s, .notInitialized, false⟩
  else if s.currentFile = "" then ⟨s, .noFileLoaded, false⟩
  else if !s.audioLoaded then ⟨s, .noAudioData, false⟩
  else
    let joined := s.isPlaying && s.threadJoinable
    let s1 := if s.isPlaying
      then { s with shouldStop := true, threadJoinable := false }
      else s
    if s1.threadJoinable then
      ⟨{ s1 with shouldStop := false }, .terminated, joined⟩
    else
      ⟨{ s1 with
          shouldStop := false
          threadJoinable := true
          isPlaying := true }, .started, joined⟩

/-- `AudioEngine::Pause` (AudioEngine.cpp:557-595): toggles `isPaused` when
playing, otherwise reports "nothing to pause"; returns true either way. -/
def pause (s : EngineState) : EngineState × Bool :=
  if !s.initialized then (s, false)
  else if s.isPlaying then ({ s with isPaused := !s.isPaused }, true)
  else (s, true)

/-- Result of `AudioEngine::Stop` together with the observable thread
action: whether the call joined a playback thread. -/
structure StopOutcome where
  state : EngineState
  ok : Bool
  joinedThread : Bool
deriving DecidableEq, Repr

/-- `AudioEngine::Stop` (AudioEngine.cpp:597-639): after the initialized
check it unconditionally sets `shouldStop`, joins the playback thread if
joinable, closes the device if open, then resets `isPlaying`, `isPaused`,
`playbackPosition` (to 0), `playbackTime` (to 0) and clears
`currentFile`, returning true. -/
def stop (s : EngineState) : StopOutcome :=
  if !s.initialized then ⟨s, false, false⟩
  else
    ⟨{ s with
        shouldStop := true
        threadJoinable := false
        hWaveOut := false
        isPlaying := false
        isPaused := false
        playbackPosition := 0
        playbackTime := 0
        currentFile := "" }, true, s.threadJoinable⟩

/-- Exit epilogue of the playback-thread lambda (AudioEngine.cpp:496-550,
Windows path).  The poll loop leaves either because `shouldStop` was
observed (early-return path, lines 505-514: close the device, clear
`isPlaying`, return — `isPaused` and `playbackTime` untouched) or because
the buffer finished (`WHDR_DONE`; lines 519-524 and 546-549: close the
device, clear `isPlaying` and `isPaused`, reset `playbackTime` to 0).
Neither path touches `playbackPosition`. -/
def playbackThreadFinish (s : EngineState) : EngineState :=
  if s.shouldStop then
    { s with hWaveOut := false, isPlaying := false }
  else
    { s with
        hWaveOut := false
        isPlaying := false
        isPaused := false
        playbackTime := 0 }

/-- Outcome of `AudioEngine::Seek`, distinguished by the error message
printed before each `return false` (all failures return plain `false` at
the C++ boundary). -/
inductive SeekResult where
  | notInitialized
  | negativePosition
  | tooFar
  | noAudioLoaded
  | exceedsLength
  | pauseFailed
  | ok
deriving DecidableEq, Repr

/-- `AudioEngine::Seek` (AudioEngine.cpp:641-714), Windows path.
Validation order as in the source: initialized, `seconds < 0`,
`seconds > 3600`, `audioLoaded`.  When not playing: if the format fields
are positive, compute `floor(seconds * nAvgBytesPerSec)` (the
`static_cast<size_t>` of a non-negative double truncates, i.e. floors)
and store it if it is inside the buffer, else store position 0 and time 0;
return true.  When playing with an open device: `waveOutPause` first
(failure aborts the call), then the same floor computation, but a computed
position at or past the buffer length is an error ("Requested position
exceeds file length") returning false with no mutation; with
`nAvgBytesPerSec = 0` or no open device the call returns true having
changed nothing. -/
def seek (s : EngineState) (seconds : ℚ) : EngineState × SeekResult :=
  if !s.initialized then (s, .notInitialized)
  else if seconds < 0 then (s, .negativePosition)
  else if seconds > 3600 then (s, .tooFar)
  else if !s.audioLoaded then (s, .noAudioLoaded)
  else if !s.isPlaying then
    if 0 < s.waveFormat.nSamplesPerSec ∧ 0 < s.waveFormat.nBlockAlign then
      let pos := (seconds * s.waveFormat.nAvgBytesPerSec).floor.toNat
      if pos < s.audioData.length then
        ({ s with playbackPosition := pos, playbackTime := seconds }, .ok)
      else
        ({ s with playbackPosition := 0, playbackTime := 0 }, .ok)
    else (s, .ok)
  else
    if s.hWaveOut then
      if s.deviceResponsive then
        if 0 < s.waveFormat.nAvgBytesPerSec then
          let pos := (seconds * s.waveFormat.nAvgBytesPerSec).floor.toNat
          if pos < s.audioData.length then
            ({ s with playbackPosition := pos, playbackTime := seconds }, .ok)
          else (s, .exceedsLength)
        else (s, .ok)
      else (s, .pauseFailed)
    else (s, .ok)

/-- `AudioEngine::IsFileLoaded` (AudioEngine.cpp:983-990). -/
def isFileLoaded (s : EngineState) : Bool :=
  s.initialized && !(s.currentFile = "") && s.audioLoaded
    && !s.audioData.isEmpty

/-- `AudioEngine::IsPlaying` (AudioEngine.cpp:992-998). -/
def isPlayingQuery (s : EngineState) : Bool :=
  s.initialized && s.isPlaying

/-- `AudioEngine::IsPaused` (AudioEngine.cpp:1000-1006). -/
def isPausedQuery (s : EngineState) : Bool :=
  s.initialized && s.isPaused

/-- The four magic bytes "RIFF". -/
def riffMagic : List Nat := [82, 73, 70, 70]

/-- The four magic bytes "WAVE". -/
def waveMagic : List Nat := [87, 65, 86, 69]

/-- The four magic bytes "fmt ". -/
def fmtMagic : List Nat := [102, 109, 116, 32]

/-- The four magic bytes "data". -/
def dataMagic : List Nat := [100, 97, 116, 97]

/-- Read `len` bytes at offset `off`; `none` models an `ifstream` read that
fails (sets failbit) because the file is too short. -/
def sliceBytes (bytes : List Nat) (off len : Nat) : Option (List Nat) :=
  if off + len ≤ bytes.length then some ((bytes.drop off).take len) else none

/-- Read a `len`-byte little-endian unsigned value at offset `off`. -/
def readLE (bytes : List Nat) (off len : Nat) : Option Nat :=
  (sliceBytes bytes off len).map
    (fun bs => bs.foldr (fun b acc => b + 256 * acc) 0)

/-- Little-endian encoding of the low 16 bits of `n` (a C++ `short`/`WORD`
written with `ofstream::write`). -/
def le16 (n : Nat) : List Nat := [n % 256, n / 256 % 256]

/-- Little-endian encoding of the low 32 bits of `n` (a C++ `int`/`DWORD`
written with `ofstream::write`). -/
def le32 (n : Nat) : List Nat :=
  [n % 256, n / 256 % 256, n / 65536 % 256, n / 16777216 % 256]

/-- The chunk walk of `AudioEngine::LoadFile`'s WAV branch
(AudioEngine.cpp:288-316): starting at offset 36, repeatedly read a 4-byte
chunk id and a 4-byte little-endian size; on `"data"`, the payload is the
declared `size` bytes (the C++ does `audioData.resize(chunkSize)` — which
value-initializes to zero — followed by a single `read`, so a truncated
file yields a zero-padded tail); on any other id, skip `size` bytes.  A
read past end of file breaks the loop with no data chunk found (`none`).
A size with the sign bit set would be a negative C++ `int` (backwards
`seekg` / gigantic `resize`); the model treats it as failure.  `fuel`
bounds the recursion; callers pass `bytes.length + 1`, which dominates the
possible number of iterations since each advances the cursor by at least
8 bytes. -/
def findDataChunk (bytes : List Nat) (pos fuel : Nat) : Option (List Nat) :=
  match fuel with
  | 0 => none
  | fuel + 1 =>
    match sliceBytes bytes pos 4, readLE bytes (pos + 4) 4 with
    | some cid, some size =>
      if 2147483648 ≤ size then none
      else if cid = dataMagic then
        let avail := (bytes.drop (pos + 8)).take size
        some (avail ++ List.replicate (size - avail.length) 0)
      else findDataChunk bytes (pos + 8 + size) fuel
    | _, _ => none

/-- The WAV branch of `AudioEngine::LoadFile` (AudioEngine.cpp:251-331), as a
pure parser: require the first four bytes `"RIFF"`; read `audioFormat` at
offset 20 (must be 1 = PCM), `numChannels` at 22, `sampleRate` at 24 and
`bitsPerSample` at 34 (the code seeks to these fixed offsets, assuming the
`fmt ` chunk sits at offset 12 with size 16); then walk chunks from offset
36 until a `data` chunk yields the payload.  The resulting `WaveFormat`
mirrors lines 319-325: `nBlockAlign = (numChannels * bitsPerSample) / 8`
and `nAvgBytesPerSec = sampleRate * nBlockAlign`.  (The C++ reads these
fields into signed `short`/`int`; for the value ranges a WAV file can
meaningfully carry, `< 2^15`, signed and unsigned arithmetic agree.)
`none` collapses the branch's distinct failure messages, all of which
`return false` without touching the session. -/
def parseWav (bytes : List Nat) : Option (WaveFormat × List Nat) :=
  if bytes.take 4 ≠ riffMagic then none
  else
    match readLE bytes 20 2, readLE bytes 22 2, readLE bytes 24 4,
        readLE bytes 34 2 with
    | some audioFormat, some numChannels, some sampleRate,
        some bitsPerSample =>
      if audioFormat ≠ 1 then none
      else
        match findDataChunk bytes 36 (bytes.length + 1) with
        | some payload =>
          let blockAlign := numChannels * bitsPerSample / 8
          some (⟨numChannels, sampleRate, bitsPerSample, blockAlign,
            sampleRate * blockAlign⟩, payload)
        | none => none
    | _, _, _, _ => none

/-- ASCII `::tolower` as applied by `LoadFile` to the extension. -/
def toLowerChar (c : Char) : Char :=
  if 'A' ≤ c ∧ c ≤ 'Z' then Char.ofNat (c.toNat + 32) else c

/-- `filePath.substr(filePath.find_last_of(".") + 1)` lower-cased
(AudioEngine.cpp:198-199).  When the path has no dot, `find_last_of`
returns `npos` and `npos + 1 = 0`, so the whole path is the "extension" —
the model reproduces this by taking the suffix after the last dot, or the
whole string when there is none. -/
def extensionOf (path : String) : String :=
  String.mk ((path.toList.reverse.takeWhile (fun c => c ≠ '.')).reverse.map
    toLowerChar)

/-- `WaveFormat` of the generated substitute tone
(AudioEngine.cpp:237-243): stereo, 44100 Hz, 16-bit. -/
def toneFormat : WaveFormat := ⟨2, 44100, 16, 4, 176400⟩

/-- The four bytes the tone generator writes for sample index `i`
(AudioEngine.cpp:223-234): the 16-bit sample value little-endian, once per
stereo channel.  `toneSample i` stands for the C++
`static_cast<short>(std::sin(2*pi*440*i/44100) * 32767)`, which is IEEE
double arithmetic; every claim below holds for an arbitrary sample
function, so it is kept as a parameter rather than approximated. -/
def toneChunk (toneSample : Nat → Int) (i : Nat) : List Nat :=
  let v := ((toneSample i).emod 65536).toNat
  [v % 256, v / 256, v % 256, v / 256]

/-- The substitute-audio buffer generated for non-WAV "unsupported" files
(AudioEngine.cpp:208-234): 44100 Hz * 2 s = 88200 samples, 4 bytes each
(16-bit stereo), 352800 bytes in total. -/
def toneBytes (toneSample : Nat → Int) : List Nat :=
  (List.range 88200).flatMap (toneChunk toneSample)

/-- The result the FLAC library hands back through the decode of an entire
file, as consumed by `LoadFile`'s FLAC branch: the accumulated PCM bytes
and the captured stream parameters.  `none` models
`FLAC__stream_decoder_init_file` or
`FLAC__stream_decoder_process_until_end_of_stream` failing. -/
structure FlacOut where
  buffer : List Nat
  sampleRate : Nat
  channels : Nat
  bitsPerSample : Nat
  totalSamples : Nat
deriving DecidableEq, Repr

/-- `AudioEngine::LoadFile` (AudioEngine.cpp:175-428).  `file` is the byte
content of `filePath` (`none` = the file does not exist), `flac` the
outcome of the external FLAC library on this file (only consulted for the
`.flac` branch).  Branches, in source order: initialized check; existence
check; empty-file check; extension dispatch — an extension outside
{wav, mp3, flac, ogg, m4a} takes the tone-generation fallback
(lines 201-249: store a generated 2-second 440 Hz stereo tone, mark the
file loaded, return success); `"wav"` parses via `parseWav`; `"flac"`
copies the library's buffer (when non-empty — an empty decode leaves the
previous `audioData` in place, line 389) and format; `"mp3"`/`"ogg"`/
`"m4a"` fail with "Format not implemented for playback". -/
def loadFile (toneSample : Nat → Int) (s : EngineState) (filePath : String)
    (file : Option (List Nat)) (flac : Option FlacOut) : EngineState × Bool :=
  if !s.initialized then (s, false)
  else
    match file with
    | none => (s, false)
    | some bytes =>
      if bytes.length = 0 then (s, false)
      else
        let ext := extensionOf filePath
        if ext ≠ "wav" ∧ ext ≠ "mp3" ∧ ext ≠ "flac" ∧ ext ≠ "ogg"
            ∧ ext ≠ "m4a" then
          ({ s with
              audioData := toneBytes toneSample
              waveFormat := toneFormat
              audioLoaded := true
              currentFile := filePath }, true)
        else if ext = "wav" then
          match parseWav bytes with
          | some (fmt, payload) =>
            ({ s with
                audioData := payload
                waveFormat := fmt
                audioLoaded := true
                currentFile := filePath }, true)
          | none => (s, false)
        else if ext = "flac" then
          match flac with
          | some out =>
            let blockAlign := out.channels * out.bitsPerSample / 8
            ({ s with
                audioData := if out.buffer.isEmpty then s.audioData
                  else out.buffer
                waveFormat := ⟨out.channels, out.sampleRate,
                  out.bitsPerSample, blockAlign,
                  out.sampleRate * blockAlign⟩
                audioLoaded := true
                currentFile := filePath }, true)
          | none => (s, false)
        else (s, false)

/-- The canonical 44-byte WAV header `AudioEngine::SaveFile` writes
(AudioEngine.cpp:929-971): RIFF size `36 + dataSize`, a 16-byte PCM `fmt `
chunk taken from the stored `waveFormat`, and the `data` chunk header. -/
def wavHeader (fmt : WaveFormat) (dataSize : Nat) : List Nat :=
  riffMagic ++ le32 (36 + dataSize) ++ waveMagic ++ fmtMagic ++ le32 16
    ++ le16 1 ++ le16 fmt.nChannels ++ le32 fmt.nSamplesPerSec
    ++ le32 fmt.nAvgBytesPerSec ++ le16 fmt.nBlockAlign
    ++ le16 fmt.wBitsPerSample ++ dataMagic ++ le32 dataSize

/-- `AudioEngine::SaveFile` (AudioEngine.cpp:912-981): initialized check,
empty-`audioData` check, then the canonical 44-byte header followed by the
raw `audioData` bytes.  The returned list is the byte content of the
written file ( `none` = the call returned false; the
could-not-open-output-file failure is not modelled since the claims
quantify over successfully written files). -/
def saveFile (s : EngineState) : Option (List Nat) :=
  if !s.initialized then none
  else if s.audioData.isEmpty then none
  else some (wavHeader s.waveFormat s.audioData.length ++ s.audioData)

/-- The fields of a `FLAC__Frame` header that `flac_write_callback` reads. -/
structure FlacFrameHeader where
  sampleRate : Nat
  channels : Nat
  bitsPerSample : Nat
  blocksize : Nat
deriving DecidableEq, Repr

/-- The `FlacDecodeData` callback context (AudioEngine.cpp:79-85): the
accumulated PCM byte buffer and the captured stream parameters (all
reset to 0 / empty before the decode starts, lines 351-356). -/
structure FlacDecodeData where
  audioBuffer : List Nat
  sampleRate : Nat
  channels : Nat
  bitsPerSample : Nat
  totalSamples : Nat
deriving DecidableEq, Repr

/-- `FLAC__StreamDecoderWriteStatus`. -/
inductive FlacWriteStatus where
  | writeContinue
  | writeAbort
deriving DecidableEq, Repr

/-- The bytes `flac_write_callback` emits for one decoded sample value `v`
at bit depth `bits` (AudioEngine.cpp:112-131): 16-bit → the low 16 bits,
two bytes little-endian (`static_cast<short>` + `memcpy`); 24-bit → the
low 24 bits, three bytes little-endian; **any other depth → the same
two-byte 16-bit packing** (the source comments this branch "Default to
16-bit for other formats").  Negative values are written in two's
complement, which `Int.emod` by the power of two reproduces. -/
def packSample (bits : Nat) (v : Int) : List Nat :=
  if bits = 16 then
    let u := (v.emod 65536).toNat
    [u % 256, u / 256]
  else if bits = 24 then
    let u := (v.emod 16777216).toNat
    [u % 256, u / 256 % 256, u / 65536]
  else
    let u := (v.emod 65536).toNat
    [u % 256, u / 256]

/-- `flac_write_callback` (AudioEngine.cpp:89-138).  `buffer` holds the
per-channel sample arrays of the frame (`buffer[channel][sample]`; an
out-of-bounds access — which in C++ would be undefined — is modelled as
reading 0).  If the stream parameters are still unset (`sampleRate = 0`),
they are captured from the frame header first.  The callback then
allocates `blocksize * channels * (bitsPerSample / 8)` zero bytes
(`std::vector<char> frame_data(total_bytes)`) and writes the interleaved
packed samples into it; for bit depths whose `packSample` output does not
match `bitsPerSample / 8` bytes per sample, the allocation and the bytes
written disagree — the model keeps the first `total_bytes` of the write
stream, zero-padded, which is what the C++ vector contains (for depths
below 16 the C++ writes past the allocation, undefined behaviour).  The
frame bytes are appended to the accumulated buffer and the callback
always answers `CONTINUE`. -/
def flacWriteCallback (st : FlacDecodeData) (frame : FlacFrameHeader)
    (buffer : List (List Int)) : FlacDecodeData × FlacWriteStatus :=
  let st1 := if st.sampleRate = 0 then
      { st with
          sampleRate := frame.sampleRate
          channels := frame.channels
          bitsPerSample := frame.bitsPerSample }
    else st
  let totalBytes := frame.blocksize * st1.channels * (st1.bitsPerSample / 8)
  let written := (List.range frame.blocksize).flatMap fun i =>
    (List.range st1.channels).flatMap fun c =>
      packSample st1.bitsPerSample ((buffer.getD c []).getD i 0)
  let frameData := written.take totalBytes
    ++ List.replicate (totalBytes - (written.take totalBytes).length) 0
  ({ st1 with audioBuffer := st1.audioBuffer ++ frameData },
    .writeContinue)

/-- An engine after a successful `Initialize`: an available processor bound,
nothing loaded yet. -/
def readyEngine : EngineState :=
  { initialEngineState with
      initialized := true
      gpuProcessor := some ⟨true⟩ }

/-- An engine whose playback thread has finished naturally: a session is
still loaded, the thread body has already cleared `isPlaying`
(AudioEngine.cpp:547), but the thread object was never joined, so
`playbackThread.joinable()` is still true. -/
def finishedNaturally : EngineState :=
  { readyEngine with
      currentFile := "a.wav"
      audioData := [1, 2, 3, 4]
      waveFormat := ⟨1, 44100, 16, 2, 88200⟩
      audioLoaded := true
      isPlaying := false
      threadJoinable := true }

/-- An engine mid-playback whose poll loop is about to exit at end of
buffer with no stop requested, the playback position partway through
the data. -/
def naturalEndState : EngineState :=
  { readyEngine with
      currentFile := "a.wav"
      audioData := [1, 2, 3, 4]
      audioLoaded := true
      isPlaying := true
      threadJoinable := true
      hWaveOut := true
      playbackPosition := 1000
      shouldStop := false }

/-- An engine that is already stopped (no live playback thread) but whose
playback position is non-zero, as left by a `Seek` issued while
stopped. -/
def stoppedWithOffset : EngineState :=
  { readyEngine with
      currentFile := "a.wav"
      audioData := [1, 2, 3, 4]
      audioLoaded := true
      isPlaying := false
      threadJoinable := false
      playbackPosition := 2 }

/-- An engine in the middle of playback: session loaded (4 bytes of PCM,
`nAvgBytesPerSec = 4`), playback thread live, device open and
responsive. -/
def playingEngine : EngineState :=
  { readyEngine with
      currentFile := "a.wav"
      audioData := [1, 2, 3, 4]
      waveFormat := ⟨1, 2, 16, 2, 4⟩
      audioLoaded := true
      isPlaying := true
      threadJoinable := true
      hWaveOut := true
      deviceResponsive := true }

/-- The engine of `playingEngine` with playback stopped and the device
closed (a loaded file, not playing). -/
def notPlayingEngine : EngineState :=
  { playingEngine with
      isPlaying := false
      threadJoinable := false
      hWaveOut := false }

/-- The `SetEQ` acceptance region claimed by the specification: both
frequencies in [20, 20000] Hz, both gains in [-20, 20] dB, both Q factors
in [0.1, 10]. -/
def eqParamsValid (f1 g1 q1 f2 g2 q2 : ℚ) : Prop :=
  (20 ≤ f1 ∧ f1 ≤ 20000) ∧ (20 ≤ f2 ∧ f2 ≤ 20000)
  ∧ (-20 ≤ g1 ∧ g1 ≤ 20) ∧ (-20 ≤ g2 ∧ g2 ≤ 20)
  ∧ (1/10 ≤ q1 ∧ q1 ≤ 10) ∧ (1/10 ≤ q2 ∧ q2 ≤ 10)

/-- A minimal canonical mono 16-bit PCM WAV file: 44-byte header,
44100 Hz, and a 4-byte data chunk `[1, 2, 3, 4]`. -/
def wavBytesMono : List Nat :=
  riffMagic ++ le32 40 ++ waveMagic ++ fmtMagic ++ le32 16 ++ le16 1
    ++ le16 1 ++ le32 44100 ++ le32 88200 ++ le16 2 ++ le16 16
    ++ dataMagic ++ le32 4 ++ [1, 2, 3, 4]

/-- Each sample of the generated tone contributes exactly 4 bytes. -/
theorem toneChunk_length (f : Nat → Int) (i : Nat) :
    (toneChunk f i).length = 4 := rfl

/-- The generated substitute tone is 352800 bytes long (2 seconds of
16-bit stereo at 44100 Hz), whatever the sample values are. -/
theorem toneBytes_length (f : Nat → Int) : (toneBytes f).length = 352800 := by
  have h : ∀ n, ((List.range n).flatMap (toneChunk f)).length = 4 * n := by
    intro n
    induction n with
    | zero => rfl
    | succ n ih => simp [List.range_succ, ih, toneChunk, Nat.mul_succ]
  simpa [toneBytes] using h 88200

/-- The header `SaveFile` emits is always exactly 44 bytes. -/
theorem wavHeader_length (fmt : WaveFormat) (n : Nat) :
    (wavHeader fmt n).length = 44 := rfl

/-- **C1** — the claim says `LoadFile` fails for every non-implemented
extension and never synthesizes substitute audio.  The code refutes this
for unknown extensions: on an initialized engine, loading an existing,
non-empty file `"song.xyz"` *succeeds*, and the session buffer afterwards
holds the generated 2-second 440 Hz stereo tone (352800 bytes) with the
file marked loaded — while an `.mp3` path, by contrast, does fail as the
claim demands.  This theorem evaluates the embedded `LoadFile` at that
failing input (for an arbitrary tone-sample function the divergence is the
same; `fun _ => 0` instantiates it). -/
theorem c1_unknown_extension_generates_tone :
    loadFile (fun _ => 0) readyEngine "song.xyz" (some [1]) none
      = ({ readyEngine with
            audioData := toneBytes (fun _ => 0)
            waveFormat := toneFormat
            audioLoaded := true
            currentFile := "song.xyz" }, true)
    ∧ (toneBytes (fun _ => 0)).length = 352800
    ∧ loadFile (fun _ => 0) readyEngine "song.mp3" (some [1]) none
      = (readyEngine, false) :=
  ⟨rfl, toneBytes_length _, rfl⟩

/-- **C2**, counterexample — the claim says that whenever `Play()` is called
while a previous playback thread exists, *whether still playing or already
finished naturally*, the new thread is started only after the previous one
has been joined.  At `finishedNaturally` (previous thread finished
naturally: `isPlaying` false, thread still joinable) `Play()` performs no
join at all (`joinedPrevious = false`) and move-assigns the new thread onto
the still-joinable member, which in C++ is `std::terminate`. -/
theorem c2_play_after_natural_finish_skips_join :
    finishedNaturally.threadJoinable = true
    ∧ finishedNaturally.isPlaying = false
    ∧ (play finishedNaturally).joinedPrevious = false
    ∧ (play finishedNaturally).result = .terminated := by decide

/-- **C2**, amended — the join-before-restart guarantee holds only when the
engine is still `Playing` at the call: then `Play()` joins the previous
thread exactly when one is joinable, and a single fresh thread is started.
When the previous thread finished naturally (`isPlaying` false but still
joinable) no join happens and the thread assignment aborts the process. -/
theorem c2_play_joins_previous_only_when_playing (s : EngineState)
    (hinit : s.initialized = true) (hfile : s.currentFile ≠ "")
    (hload : s.audioLoaded = true) (hplay : s.isPlaying = true) :
    (play s).joinedPrevious = s.threadJoinable
    ∧ (play s).result = .started
    ∧ (play s).state.isPlaying = true
    ∧ (play s).state.threadJoinable = true := by
  simp [play, hinit, hfile, hload, hplay]

/-- Witness for C2's amended theorem at the concrete state
`playingEngine`. -/
theorem c2_play_joins_previous_witness :
    (play playingEngine).joinedPrevious = playingEngine.threadJoinable
    ∧ (play playingEngine).result = .started
    ∧ (play playingEngine).state.isPlaying = true
    ∧ (play playingEngine).state.threadJoinable = true :=
  c2_play_joins_previous_only_when_playing playingEngine rfl (by decide)
    rfl rfl

/-- **C3**, counterexample — the claim says that on natural end-of-buffer
the playback thread resets the playback byte position to 0 before exiting.
At `naturalEndState` (no stop requested, position 1000) the thread exit
epilogue does mark the state stopped, but leaves `playbackPosition` at
1000. -/
theorem c3_natural_end_keeps_position :
    naturalEndState.shouldStop = false
    ∧ (playbackThreadFinish naturalEndState).isPlaying = false
    ∧ (playbackThreadFinish naturalEndState).playbackPosition = 1000
    ∧ (playbackThreadFinish naturalEndState).playbackPosition ≠ 0 := by decide

/-- **C3**, amended — on natural end-of-buffer (no stop requested) the
playback thread marks the state stopped (`isPlaying` and `isPaused`
cleared), closes the device, and resets `playbackTime` (the seconds
counter) to 0 — but `playbackPosition` (the byte position) is left
unchanged, not reset to 0. -/
theorem c3_natural_end_epilogue (s : EngineState)
    (h : s.shouldStop = false) :
    playbackThreadFinish s
      = { s with
          hWaveOut := false
          isPlaying := false
          isPaused := false
          playbackTime := 0 }
    ∧ (playbackThreadFinish s).playbackPosition = s.playbackPosition := by
  simp [playbackThreadFinish, h]

/-- Witness for C3's amended theorem at the concrete state
`naturalEndState`. -/
theorem c3_natural_end_epilogue_witness :
    playbackThreadFinish naturalEndState
      = { naturalEndState with
          hWaveOut := false
          isPlaying := false
          isPaused := false
          playbackTime := 0 }
    ∧ (playbackThreadFinish naturalEndState).playbackPosition
        = naturalEndState.playbackPosition :=
  c3_natural_end_epilogue naturalEndState rfl

/-- **C4**, counterexample — the claim says a `Stop()` on an already
stopped engine leaves `positionBytes` unchanged.  At `stoppedWithOffset`
(stopped, no joinable thread, position 2, e.g. set by a `Seek` while
stopped) `Stop()` succeeds without joining, but zeroes the position. -/
theorem c4_stop_when_stopped_zeroes_position :
    stoppedWithOffset.isPlaying = false
    ∧ stoppedWithOffset.threadJoinable = false
    ∧ stoppedWithOffset.playbackPosition = 2
    ∧ (stop stoppedWithOffset).ok = true
    ∧ (stop stoppedWithOffset).state.playbackPosition = 0 := by decide

/-- **C4**, amended — calling `Stop()` on an initialized engine with no
live playback thread succeeds and does not join a non-existent thread, but
it unconditionally resets `playbackPosition` to 0, resets `playbackTime`,
and clears the current file, rather than leaving the position
unchanged. -/
theorem c4_stop_idempotent_but_resets (s : EngineState)
    (hinit : s.initialized = true) (hjoin : s.threadJoinable = false) :
    (stop s).ok = true
    ∧ (stop s).joinedThread = false
    ∧ (stop s).state.playbackPosition = 0
    ∧ (stop s).state.playbackTime = 0
    ∧ (stop s).state.currentFile = "" := by
  simp [stop, hinit, hjoin]

/-- Witness for C4's amended theorem at the concrete state
`stoppedWithOffset`. -/
theorem c4_stop_idempotent_witness :
    (stop stoppedWithOffset).ok = true
    ∧ (stop stoppedWithOffset).joinedThread = false
    ∧ (stop stoppedWithOffset).state.playbackPosition = 0
    ∧ (stop stoppedWithOffset).state.playbackTime = 0
    ∧ (stop stoppedWithOffset).state.currentFile = "" :=
  c4_stop_idempotent_but_resets stoppedWithOffset rfl rfl

/-- **C5** — on an initialized engine, `SetEQ` accepts its parameters if
and only if both frequencies lie in [20, 20000] Hz, both gains in
[-20, 20] dB and both Q factors in [0.1, 10] (all bounds inclusive, so the
boundary call succeeds — see the witness); the call never mutates the
engine state (hence rejection is all-or-nothing), and every failure blames
a parameter that is genuinely out of range. -/
theorem c5_setEQ_validation (s : EngineState) (f1 g1 q1 f2 g2 q2 : ℚ)
    (hinit : s.initialized = true) :
    ((setEQ s f1 g1 q1 f2 g2 q2).2 = .ok ()
        ↔ eqParamsValid f1 g1 q1 f2 g2 q2)
    ∧ (setEQ s f1 g1 q1 f2 g2 q2).1 = s
    ∧ ∀ e, (setEQ s f1 g1 q1 f2 g2 q2).2 = .error e →
        eqErrorBlames e f1 g1 q1 f2 g2 q2 := by
  unfold setEQ
  simp only [hinit, Bool.not_true, Bool.false_eq_true, if_false]
  refine ⟨?_, ?_, ?_⟩
  · unfold eqParamsValid
    split_ifs with h1 h2 h3 h4 h5 h6 <;>
      simp_all [not_or, not_lt, not_le] <;>
      (intros
       first
         | ((rcases h1 with h | h) <;> linarith)
         | ((rcases h2 with h | h) <;> linarith)
         | ((rcases h3 with h | h) <;> linarith)
         | ((rcases h4 with h | h) <;> linarith)
         | ((rcases h5 with h | h) <;> linarith)
         | ((rcases h6 with h | h) <;> linarith))
  · split_ifs <;> rfl
  · intro e he
    split_ifs at he with h1 h2 h3 h4 h5 h6
    all_goals
      first
        | (replace he : EQError.freq1OutOfRange = e := by simpa using he
           subst he; exact h1)
        | (replace he : EQError.freq2OutOfRange = e := by simpa using he
           subst he; exact h2)
        | (replace he : EQError.gain1OutOfRange = e := by simpa using he
           subst he; exact h3)
        | (replace he : EQError.gain2OutOfRange = e := by simpa using he
           subst he; exact h4)
        | (replace he : EQError.q1OutOfRange = e := by simpa using he
           subst he; exact h5)
        | (replace he : EQError.q2OutOfRange = e := by simpa using he
           subst he; exact h6)

/-- Witness for C5 at the specification's boundary values:
`SetEQ(20, -20, 0.1, 20000, 20, 10)` succeeds. -/
theorem c5_setEQ_boundary_witness :
    (setEQ readyEngine 20 (-20) (1/10) 20000 20 10).2 = .ok () :=
  ((c5_setEQ_validation readyEngine 20 (-20) (1/10) 20000 20 10 rfl).1).mpr
    (by norm_num [eqParamsValid])

/-- **C6**, counterexample — the claim says a computed seek position beyond
the buffer length clamps to 0 and the call still succeeds *in every
playback state*.  At `playingEngine` (playing, device open and responsive,
4-byte buffer, `avgBytesPerSec = 4`), `Seek(2)` computes byte position 8,
which is past the buffer — and the call *fails* with the
position-exceeds-file-length error, leaving the state unchanged, instead
of clamping to 0 and succeeding. -/
theorem c6_seek_playing_beyond_length_fails :
    (0 : ℚ) ≤ 2 ∧ (2 : ℚ) ≤ 3600
    ∧ playingEngine.isPlaying = true
    ∧ ((2 : ℚ) * playingEngine.waveFormat.nAvgBytesPerSec).floor.toNat = 8
    ∧ playingEngine.audioData.length = 4
    ∧ seek playingEngine 2 = (playingEngine, .exceedsLength) := by
  refine ⟨by norm_num, by norm_num, rfl, ?_, rfl, ?_⟩
  · show ((2 : ℚ) * ((4 : ℕ) : ℚ)).floor.toNat = 8
    norm_num
    decide
  · unfold seek
    norm_num [playingEngine, readyEngine, initialEngineState]
    decide

/-- **C6**, amended — `Seek(seconds)` rejects `seconds` outside
[0, 3600] (the policy constant); for in-range seconds with a loaded
buffer, *when not playing* it stores `floor(seconds * avgBytesPerSec)`,
clamping a computed position beyond the buffer length to 0 and still
succeeding; but *during playback* with an open, responsive device, a
computed position at or beyond the buffer length makes the call fail with
the position state unchanged, instead of clamping. -/
theorem c6_seek_contract (s : EngineState) (q : ℚ)
    (hinit : s.initialized = true) (hload : s.audioLoaded = true) :
    (q < 0 → seek s q = (s, .negativePosition))
    ∧ (q > 3600 → seek s q = (s, .tooFar))
    ∧ (0 ≤ q → q ≤ 3600 → s.isPlaying = false →
        0 < s.waveFormat.nSamplesPerSec → 0 < s.waveFormat.nBlockAlign →
        seek s q =
          (if (q * s.waveFormat.nAvgBytesPerSec).floor.toNat
              < s.audioData.length then
            ({ s with
                playbackPosition :=
                  (q * s.waveFormat.nAvgBytesPerSec).floor.toNat
                playbackTime := q }, .ok)
          else ({ s with playbackPosition := 0, playbackTime := 0 }, .ok)))
    ∧ (0 ≤ q → q ≤ 3600 → s.isPlaying = true → s.hWaveOut = true →
        s.deviceResponsive = true → 0 < s.waveFormat.nAvgBytesPerSec →
        s.audioData.length ≤ (q * s.waveFormat.nAvgBytesPerSec).floor.toNat →
        seek s q = (s, .exceedsLength)) := by
  refine ⟨?_, ?_, ?_, ?_⟩
  · intro hq
    simp [seek, hinit, hq]
  · intro hq
    have h0 : ¬ q < 0 := by linarith
    simp [seek, hinit, hq, h0]
  · intro hq0 hq1 hplay hsr hba
    have h0 : ¬ q < 0 := not_lt.mpr hq0
    have h1 : ¬ q > 3600 := not_lt.mpr hq1
    simp [seek, hinit, hload, h0, h1, hplay, hsr, hba]
  · intro hq0 hq1 hplay hdev hresp havg hlen
    have h0 : ¬ q < 0 := not_lt.mpr hq0
    have h1 : ¬ q > 3600 := not_lt.mpr hq1
    have h2 : ¬ (q * s.waveFormat.nAvgBytesPerSec).floor.toNat
        < s.audioData.length := not_lt.mpr hlen
    simp [seek, hinit, hload, h0, h1, hplay, hdev, hresp, havg, h2]

/-- Witness for C6's amended theorem: at `notPlayingEngine`
(`avgBytesPerSec = 4`, 4-byte buffer), `Seek(1/2)` stores byte position
`floor(1/2 * 4) = 2` and succeeds. -/
theorem c6_seek_contract_witness :
    seek notPlayingEngine (1/2)
      = ({ notPlayingEngine with
            playbackPosition := 2
            playbackTime := 1/2 }, .ok) := by
  have h := (c6_seek_contract notPlayingEngine (1/2) rfl rfl).2.2.1
    (by norm_num) (by norm_num) rfl
    (by norm_num [notPlayingEngine, playingEngine, readyEngine,
      initialEngineState])
    (by norm_num [notPlayingEngine, playingEngine, readyEngine,
      initialEngineState])
  have hc : ((1/2 : ℚ)
      * (notPlayingEngine.waveFormat.nAvgBytesPerSec : ℚ)).floor.toNat
        = 2 := by
    show ((1/2 : ℚ) * ((4 : ℕ) : ℚ)).floor.toNat = 2
    norm_num
    decide
  rw [h, hc]
  simp
  decide

/-- **C7** — the claim says a frame with a bit depth other than 16 or 24
makes the decode fail with `UnsupportedBitDepth`, never silently packing
samples as 16-bit.  The write callback does the opposite: with the stream
already known to be 8 bits per sample, a mono frame with sample value 5 is
packed through the default 16-bit branch and the callback answers
`CONTINUE` — the accumulated buffer grows (here truncated to the 1-byte
allocation the code computed from the 8-bit depth; in C++ this write even
overflows the allocation).  With a 32-bit stream a frame is likewise
packed as two 16-bit bytes inside the 4-byte allocation.  The third
conjunct exhibits that an unsupported depth is packed exactly like
16-bit. -/
theorem c7_flac_write_packs_unsupported_depth_as_16bit :
    flacWriteCallback ⟨[], 8000, 1, 8, 0⟩ ⟨8000, 1, 8, 1⟩ [[5]]
      = (⟨[5], 8000, 1, 8, 0⟩, .writeContinue)
    ∧ flacWriteCallback ⟨[], 44100, 1, 32, 0⟩ ⟨44100, 1, 32, 1⟩ [[258]]
      = (⟨[2, 1, 0, 0], 44100, 1, 32, 0⟩, .writeContinue)
    ∧ packSample 8 5 = packSample 16 5 := by decide

/-- **C8**, counterexample — the claim says binding succeeds even when the
bound accelerator reports `IsAvailable() == false`.  The code refutes
this: `Initialize` with a processor whose `IsAvailable()` is false returns
failure and leaves the engine uninitialized. -/
theorem c8_unavailable_processor_rejected :
    (initEngine initialEngineState (some ⟨false⟩)).2 = false
    ∧ (initEngine initialEngineState (some ⟨false⟩)).1.initialized
        = false := by
  decide

/-- **C8**, amended — every modelled public engine operation first checks
that the engine is initialized and returns a failure leaving the state
untouched otherwise; but "initialized" requires `Initialize` to have been
given a processor whose `IsAvailable()` reported *true*: binding an
unavailable (or absent) accelerator fails and leaves the engine
uninitialized. -/
theorem c8_initialized_guard (s : EngineState)
    (h : s.initialized = false) :
    (∀ t path file flac, loadFile t s path file flac = (s, false))
    ∧ play s = ⟨s, .notInitialized, false⟩
    ∧ pause s = (s, false)
    ∧ stop s = ⟨s, false, false⟩
    ∧ (∀ q, seek s q = (s, .notInitialized))
    ∧ (∀ f1 g1 q1 f2 g2 q2, setEQ s f1 g1 q1 f2 g2 q2
        = (s, .error .notInitialized))
    ∧ saveFile s = none
    ∧ isFileLoaded s = false
    ∧ isPlayingQuery s = false
    ∧ isPausedQuery s = false
    ∧ (∀ p, (initEngine s (some p)).2 = p.available
        ∧ ((initEngine s (some p)).1.initialized = true
            ↔ p.available = true))
    ∧ initEngine s none = (s, false) := by
  refine ⟨?_, ?_, ?_, ?_, ?_, ?_, ?_, ?_, ?_, ?_, ?_, ?_⟩
  · intro t path file flac
    simp [loadFile, h]
  · simp [play, h]
  · simp [pause, h]
  · simp [stop, h]
  · intro q
    simp [seek, h]
  · intro f1 g1 q1 f2 g2 q2
    simp [setEQ, h]
  · simp [saveFile, h]
  · simp [isFileLoaded, h]
  · simp [isPlayingQuery, h]
  · simp [isPausedQuery, h]
  · intro p
    cases hp : p.available <;> simp [initEngine, hp, h]
  · simp [initEngine]

/-- Witness for C8's amended theorem at the freshly constructed engine
state. -/
theorem c8_initialized_guard_witness :
    (∀ q, seek initialEngineState q
        = (initialEngineState, .notInitialized))
    ∧ saveFile initialEngineState = none
    ∧ (initEngine initialEngineState (some ⟨true⟩)).2 = true := by
  have h := c8_initialized_guard initialEngineState rfl
  exact ⟨h.2.2.2.2.1, h.2.2.2.2.2.2.1, by
    have hp := (h.2.2.2.2.2.2.2.2.2.2.1 ⟨true⟩).1
    simpa using hp⟩

/-- **C9** — for a WAV input the parser accepts (with 16-bit samples and
one or two channels, and a non-empty data chunk), `LoadFile` stores the
data-chunk bytes verbatim and `SaveFile` then writes the canonical 44-byte
header recomputed from the stored format fields followed by exactly those
bytes: the written file's data portion (everything after byte 44) is
byte-for-byte the input's data-chunk payload. -/
theorem c9_wav_roundtrip (t : Nat → Int) (s : EngineState) (path : String)
    (bytes : List Nat) (flac : Option FlacOut) (fmt : WaveFormat)
    (payload : List Nat)
    (hinit : s.initialized = true)
    (hext : extensionOf path = "wav")
    (hparse : parseWav bytes = some (fmt, payload))
    (hne : payload ≠ [])
    (_hbits : fmt.wBitsPerSample = 16)
    (_hch : fmt.nChannels = 1 ∨ fmt.nChannels = 2) :
    loadFile t s path (some bytes) flac
      = ({ s with
            audioData := payload
            waveFormat := fmt
            audioLoaded := true
            currentFile := path }, true)
    ∧ saveFile { s with
          audioData := payload
          waveFormat := fmt
          audioLoaded := true
          currentFile := path }
        = some (wavHeader fmt payload.length ++ payload)
    ∧ (wavHeader fmt payload.length ++ payload).drop 44 = payload
    ∧ (wavHeader fmt payload.length ++ payload).take 44
        = wavHeader fmt payload.length := by
  have hb : bytes ≠ [] := by
    intro hb0
    rw [hb0, show parseWav [] = none from rfl] at hparse
    exact Option.noConfusion hparse
  have hlen : ¬ bytes.length = 0 := by simpa [List.length_eq_zero] using hb
  refine ⟨?_, ?_, ?_, ?_⟩
  · simp [loadFile, hinit, hlen, hext, hparse]
  · simp [saveFile, hinit, hne]
  · rw [← wavHeader_length fmt payload.length]
    exact List.drop_left _ _
  · rw [← wavHeader_length fmt payload.length]
    exact List.take_left _ _

/-- Witness for C9 on the concrete file `wavBytesMono` (canonical mono
16-bit WAV with data chunk `[1, 2, 3, 4]`). -/
theorem c9_wav_roundtrip_witness :
    loadFile (fun _ => 0) readyEngine "a.wav" (some wavBytesMono) none
      = ({ readyEngine with
            audioData := [1, 2, 3, 4]
            waveFormat := ⟨1, 44100, 16, 2, 88200⟩
            audioLoaded := true
            currentFile := "a.wav" }, true)
    ∧ saveFile { readyEngine with
          audioData := [1, 2, 3, 4]
          waveFormat := ⟨1, 44100, 16, 2, 88200⟩
          audioLoaded := true
          currentFile := "a.wav" }
        = some (wavHeader ⟨1, 44100, 16, 2, 88200⟩ 4 ++ [1, 2, 3, 4])
    ∧ (wavHeader ⟨1, 44100, 16, 2, 88200⟩ 4 ++ [1, 2, 3, 4]).drop 44
        = [1, 2, 3, 4]
    ∧ (wavHeader ⟨1, 44100, 16, 2, 88200⟩ 4 ++ [1, 2, 3, 4]).take 44
        = wavHeader ⟨1, 44100, 16, 2, 88200⟩ 4 :=
  c9_wav_roundtrip (fun _ => 0) readyEngine "a.wav" wavBytesMono none
    ⟨1, 44100, 16, 2, 88200⟩ [1, 2, 3, 4] rfl (by decide) (by decide)
    (by decide) rfl (Or.inl rfl)

/-- **C10** — after any successful `Stop()` on an initialized engine the
current file path is cleared, so `IsFileLoaded()` returns false and a
subsequent `Play()` fails with the no-file-loaded error and changes
nothing, even though the decoded PCM bytes (and the `audioLoaded` flag)
are still resident: `Stop()` unloads the session rather than only
resetting position and playback state. -/
theorem c10_stop_unloads_session (s : EngineState)
    (hinit : s.initialized = true) :
    (stop s).ok = true
    ∧ (stop s).state.currentFile = ""
    ∧ (stop s).state.audioData = s.audioData
    ∧ (stop s).state.audioLoaded = s.audioLoaded
    ∧ isFileLoaded (stop s).state = false
    ∧ (play (stop s).state).result = .noFileLoaded
    ∧ (play (stop s).state).state = (stop s).state := by
  simp [stop, isFileLoaded, play, hinit]

/-- Witness for C10 at the concrete state `playingEngine`. -/
theorem c10_stop_unloads_witness :
    (stop playingEngine).ok = true
    ∧ (stop playingEngine).state.currentFile = ""
    ∧ (stop playingEngine).state.audioData = playingEngine.audioData
    ∧ (stop playingEngine).state.audioLoaded = playingEngine.audioLoaded
    ∧ isFileLoaded (stop playingEngine).state = false
    ∧ (play (stop playingEngine).state).result = .noFileLoaded
    ∧ (play (stop playingEngine).state).state = (stop playingEngine).state :=
  c10_stop_unloads_session playingEngine rfl
